import Mathlib

/-!
Verification of the guardrail / validation pipeline of the LLM grading
repository (`guardrails.py`, `schemas.py`).

Python strings are modelled as `List Char`, Python floats as `ℚ`,
Python dicts as association lists, `datetime` timestamps as `Int`
(seconds).  A Python function that can raise is modelled as returning
`Option`: `none` is an uncaught exception.
-/

namespace LLMGrading

/-- Python strings are modelled as lists of characters. -/
abbrev Str := List Char

/-- Python `str.lower()`. -/
def pyLower (s : Str) : Str := s.map Char.toLower

/-- Does `s` start with `needle`?  (Helper for substring containment.) -/
def pyStartsWith : Str → Str → Bool
  | [], _ => true
  | _ :: _, [] => false
  | a :: as, b :: bs => a == b && pyStartsWith as bs

/-- Python `needle in haystack` (substring containment). -/
def pyIn (needle : Str) : Str → Bool
  | [] => needle.isEmpty
  | c :: rest => pyStartsWith needle (c :: rest) || pyIn needle rest

/-- Characters removed by Python `str.strip()` with no argument. -/
def isPySpace (c : Char) : Bool :=
  c == ' ' || c == '\t' || c == '\n' || c == '\r' || c == '\x0b' || c == '\x0c'

/-- Removes trailing whitespace (Python `str.rstrip()`). -/
def pyStripTrail (s : Str) : Str := (s.reverse.dropWhile isPySpace).reverse

/-- Python `str.strip()`: removes leading and trailing whitespace. -/
def pyStrip (s : Str) : Str := (pyStripTrail s).dropWhile isPySpace

/-- Python `d.get(k, default)` on an association list. -/
def pyDictGet {α : Type} (d : List (Str × α)) (k : Str) (dflt : α) : α :=
  match d with
  | [] => dflt
  | kv :: rest => if kv.1 = k then kv.2 else pyDictGet rest k dflt

/-- Python `d[k] = v` on an association list (update or insert). -/
def pyDictSet {α : Type} (d : List (Str × α)) (k : Str) (v : α) : List (Str × α) :=
  match d with
  | [] => [(k, v)]
  | kv :: rest => if kv.1 = k then (k, v) :: rest else kv :: pyDictSet rest k v

/-- Python `str(i)` for an integer. -/
def intToStr (i : Int) : Str := (toString i).toList

/-- Python `str(n)` for a non-negative count. -/
def natToStr (n : Nat) : Str := (toString n).toList

/-- Addition on `ℚ`, computed through `mkRat` so that it reduces inside
the kernel (`Rat.add` is irreducible); `ratAdd_eq` below shows it is
ordinary rational addition. -/
def ratAdd (a b : ℚ) : ℚ := mkRat (a.num * b.den + b.num * a.den) (a.den * b.den)

/-- Subtraction on `ℚ` through `mkRat`; see `ratSub_eq`. -/
def ratSub (a b : ℚ) : ℚ := mkRat (a.num * b.den - b.num * a.den) (a.den * b.den)

/-- Python `abs` on `ℚ`; see `ratAbs_eq`. -/
def ratAbs (a : ℚ) : ℚ := if a < 0 then ratSub 0 a else a

/-- Python `sum` over a list of rationals; see `ratSum_eq`. -/
def ratSum (l : List ℚ) : ℚ := l.foldr ratAdd 0

/-- Source `schemas.py` — the closed `error_type` literal set of `GradingResult`. -/
inductive ErrorType where
  | wrong_calculation
  | wrong_methodology
  | missing_data
  | incomplete_work
  | no_error
deriving DecidableEq

/-- Source `schemas.GradingResult` — the typed field set of the pydantic model.
A value of this structure is the (well-typed) payload; whether the pydantic
constructor accepts it is the separate predicate `pydanticErrors r = []`
(see below), mirroring construction-time validation. -/
structure GradingResult where
  question_number : Int
  points_earned : ℚ
  points_possible : Int
  is_correct : Bool
  student_answer : Str
  correct_answer : Str
  points_breakdown : List (Str × ℚ)
  error_type : Option ErrorType
  specific_errors : List Str
  what_was_correct : List Str
  feedback : Str
  data_references : List Str
deriving DecidableEq

/-- Python `sum(result.points_breakdown.values())`. -/
def breakdownSum (r : GradingResult) : ℚ := ratSum (r.points_breakdown.map Prod.snd)

/-- The construction-time errors of the pydantic `GradingResult` model. -/
inductive SchemaError where
  | questionNumberRange
  | pointsEarnedRange
  | pointsExceedPossible
  | breakdownSum
  | feedbackMinLength
deriving DecidableEq

/-- Source `schemas.GradingResult` construction-time validation, in pydantic-v1
field order.  Notes kept faithful to the source:
* `question_number` has `ge=1, le=10`; `points_earned` has `ge=0, le=10`;
  `points_possible` has no constraint; `feedback` has `min_length=50`.
* the `validate_points` validator runs only when the `points_earned` field
  constraints passed, and reads `values.get('points_possible', 10)`;
  since `points_possible` is declared after `points_earned` it is never in
  `values` yet, so the comparison is against the default `10` — the block
  below is therefore unsatisfiable (its condition requires
  `points_earned ≤ 10` and `10 < points_earned`), exactly as in the source.
* the `validate_breakdown` validator reads `values.get('points_earned', 0)`:
  `points_earned` is present in `values` iff its own checks passed. -/
def pydanticErrors (r : GradingResult) : List SchemaError :=
  (if ¬ (1 ≤ r.question_number ∧ r.question_number ≤ 10) then
    [SchemaError.questionNumberRange] else [])
  ++ (if ¬ (0 ≤ r.points_earned ∧ r.points_earned ≤ 10) then
    [SchemaError.pointsEarnedRange] else [])
  ++ (if (0 ≤ r.points_earned ∧ r.points_earned ≤ 10) ∧ 10 < r.points_earned then
    [SchemaError.pointsExceedPossible] else [])
  ++ (if ¬ (ratAbs (ratSub (breakdownSum r)
        (if 0 ≤ r.points_earned ∧ r.points_earned ≤ 10 then r.points_earned else 0)) ≤ mkRat 1 100) then
    [SchemaError.breakdownSum] else [])
  ++ (if r.feedback.length < 50 then [SchemaError.feedbackMinLength] else [])

/-- Python `GradingResult(**response)`: `some` result iff every construction-time
check passes, `none` models a raised `ValidationError`. -/
def parseGradingResult (r : GradingResult) : Option GradingResult :=
  if pydanticErrors r = [] then some r else none

/-- A raw student submission, a dict that may lack either key.
(`guardrails.py` treats a key mapped to Python `None` exactly like a
missing key in its required-field check; both are modelled as `none`.) -/
structure Submission where
  question_number : Option Int
  student_answer : Option Str
deriving DecidableEq

/-- Errors produced by `InputGuardrails.validate_student_submission`. -/
inductive InputError where
  | missingField (field : Str)
  | invalidQuestionNumber (got : Int)
  | emptyAnswer
  | answerTooLong (len : Nat)
deriving DecidableEq

/-- Key string used for the required-field error messages. -/
def questionNumberKey : Str := "question_number".toList

/-- Key string used for the required-field error messages. -/
def studentAnswerKey : Str := "student_answer".toList

/-- Source `InputGuardrails.validate_student_submission`.  The four independent
rule blocks of the source, accumulated in order.  (The source's
`elif answer == "" or answer is None` arm can never fire for a well-typed
string because the strip-empty arm already covers `""`; `None` values are
collapsed into the missing-field case.) -/
def validate_student_submission (s : Submission) : Bool × List InputError :=
  let errors :=
    (if s.question_number = none then [InputError.missingField questionNumberKey] else [])
    ++ (if s.student_answer = none then [InputError.missingField studentAnswerKey] else [])
    ++ (match s.question_number with
        | some q => if ¬ (1 ≤ q ∧ q ≤ 10) then [InputError.invalidQuestionNumber q] else []
        | none => [])
    ++ (match s.student_answer with
        | some a => if pyStrip a = [] then [InputError.emptyAnswer] else []
        | none => [])
    ++ (match s.student_answer with
        | some a => if 5000 < a.length then [InputError.answerTooLong a.length] else []
        | none => [])
  (errors.isEmpty, errors)

/-- The prompt-injection indicator phrases of
`InputGuardrails.sanitize_student_answer`. -/
def dangerous_patterns : List Str :=
  ["ignore previous instructions".toList,
   "disregard all".toList,
   "forget everything".toList,
   "system:".toList,
   "assistant:".toList]

/-- The flag marker prepended on a prompt-injection match. -/
def flagMarker : Str := "[FLAGGED: potential prompt injection] ".toList

/-- The `for pattern in dangerous_patterns` loop of
`sanitize_student_answer`: on the first (case-insensitive) match the flag
marker is prepended and the loop breaks. -/
def sanitizeScan (sanitized : Str) : List Str → Str
  | [] => sanitized
  | p :: rest =>
    if pyIn (pyLower p) (pyLower sanitized) then flagMarker ++ sanitized
    else sanitizeScan sanitized rest

/-- Source `InputGuardrails.sanitize_student_answer` (the scan loop followed by
the final `sanitized.strip()`). -/
def sanitize_student_answer (answer : Str) : Str :=
  pyStrip (sanitizeScan answer dangerous_patterns)

/-- Errors produced by `OutputGuardrails.validate_llm_response`.
Each constructor carries the data the source interpolates into its
message string. -/
inductive OutputError where
  | pydanticFailed (errors : List SchemaError)
  | questionMismatch (expected got : Int)
  | pointsExceed (earned : ℚ) (possible : Int)
  | breakdownMismatch (total earned : ℚ)
  | feedbackTooShort (len : Nat)
  | placeholderText (indicator : Str)
deriving DecidableEq

/-- Is this the stage-5 (feedback shorter than 20 chars) error? -/
def OutputError.is_feedback_short : OutputError → Bool
  | .feedbackTooShort _ => true
  | _ => false

/-- Is this the stage-3 (points earned exceeds points possible) error? -/
def OutputError.is_points_exceed : OutputError → Bool
  | .pointsExceed _ _ => true
  | _ => false

/-- The placeholder indicator list of `validate_llm_response`. -/
def placeholder_indicators : List Str :=
  ["[insert".toList, "TODO".toList, "FIXME".toList, "xxx".toList, "...".toList]

/-- The post-parse checks of `OutputGuardrails.validate_llm_response`
(stages 2–6), applied to a successfully constructed result, in source
order.  The placeholder loop appends one error per matching indicator. -/
def outputStageErrors (result : GradingResult) (question_number : Int) : List OutputError :=
  (if result.question_number ≠ question_number then
    [OutputError.questionMismatch question_number result.question_number] else [])
  ++ (if (result.points_possible : ℚ) < result.points_earned then
    [OutputError.pointsExceed result.points_earned result.points_possible] else [])
  ++ (if ¬ (ratAbs (ratSub (breakdownSum result) result.points_earned) ≤ mkRat 1 100) then
    [OutputError.breakdownMismatch (breakdownSum result) result.points_earned] else [])
  ++ (if result.feedback.length < 20 then
    [OutputError.feedbackTooShort result.feedback.length] else [])
  ++ (placeholder_indicators.filter
        (fun ind => pyIn (pyLower ind) (pyLower result.feedback))).map
      OutputError.placeholderText

/-- Source `OutputGuardrails.validate_llm_response`: construction of the
`GradingResult` is a hard gate (failure returns `(False, errors, None)`);
otherwise the stage 2–6 errors are collected and the parsed result is
returned alongside them. -/
def validate_llm_response (response : GradingResult) (question_number : Int) :
    Bool × List OutputError × Option GradingResult :=
  match parseGradingResult response with
  | none => (false, [OutputError.pydanticFailed (pydanticErrors response)], none)
  | some result =>
    let errors := outputStageErrors result question_number
    (errors.isEmpty, errors, some result)

/-- Warnings produced by `OutputGuardrails.check_consistency`. -/
inductive ConsistencyWarning where
  | correctButLowScore (earned : ℚ)
  | incorrectNoErrors
  | noErrorButIncorrect
  | zeroPointsNonzeroBreakdown
deriving DecidableEq

/-- Source `OutputGuardrails.check_consistency`: four independent non-blocking
audits, accumulated in source order. -/
def check_consistency (result : GradingResult) : Bool × List ConsistencyWarning :=
  let warnings :=
    (if result.is_correct ∧ result.points_earned < 8 then
      [ConsistencyWarning.correctButLowScore result.points_earned] else [])
    ++ (if ¬ result.is_correct ∧ result.specific_errors.length = 0 then
      [ConsistencyWarning.incorrectNoErrors] else [])
    ++ (if result.error_type = some ErrorType.no_error ∧ ¬ result.is_correct then
      [ConsistencyWarning.noErrorButIncorrect] else [])
    ++ (if result.points_earned = 0 ∧
          result.points_breakdown.any (fun kv => 0 < kv.2) then
      [ConsistencyWarning.zeroPointsNonzeroBreakdown] else [])
  (warnings.isEmpty, warnings)

/-- Violations produced by `BusinessRulesGuardrails.enforce_grading_policies`. -/
inductive PolicyViolation where
  | noPartialCreditForMethodology
  | insufficientFeedback (len : Nat)
  | missingDataReferences
  | zeroPointsFewErrors
deriving DecidableEq

/-- The `"showing_work"` breakdown key. -/
def showingWorkKey : Str := "showing_work".toList

/-- Source `BusinessRulesGuardrails.enforce_grading_policies`: the four policy
blocks of the source, accumulated in order. -/
def enforce_grading_policies (result : GradingResult) : Bool × List PolicyViolation :=
  let violations :=
    (if result.error_type = some ErrorType.wrong_calculation ∧
        pyDictGet result.points_breakdown showingWorkKey 0 = 0 then
      [PolicyViolation.noPartialCreditForMethodology] else [])
    ++ (if result.points_earned < (result.points_possible : ℚ) ∧
          result.feedback.length < 50 then
      [PolicyViolation.insufficientFeedback result.feedback.length] else [])
    ++ (if (result.error_type = some ErrorType.wrong_calculation ∨
            result.error_type = some ErrorType.missing_data) ∧
          result.data_references.length = 0 then
      [PolicyViolation.missingDataReferences] else [])
    ++ (if result.points_earned = 0 ∧ result.specific_errors.length < 2 then
      [PolicyViolation.zeroPointsFewErrors] else [])
  (violations.isEmpty, violations)

/-- The fixed part of the fallback feedback template before the
interpolated error message. -/
def fallbackFeedbackPre : Str :=
  "This submission could not be automatically graded due to a system error.\n\nError details: ".toList

/-- The fixed part of the fallback feedback template after the
interpolated error message. -/
def fallbackFeedbackPost : Str :=
  ("\n\nThis answer has been flagged for manual review by an instructor. You will receive \n"
    ++ "your grade and feedback within 24 hours.\n\n"
    ++ "If you believe this is an error, please contact your instructor.").toList

/-- The templated feedback block of `create_fallback_result`. -/
def fallbackFeedback (error_message : Str) : Str :=
  fallbackFeedbackPre ++ error_message ++ fallbackFeedbackPost

/-- The field set `ErrorHandlingGuardrails.create_fallback_result` passes
to the `GradingResult` constructor. -/
def fallbackFields (question_number : Int) (student_answer error_message : Str) :
    GradingResult :=
  { question_number := question_number
    points_earned := 0
    points_possible := 10
    is_correct := false
    student_answer := student_answer
    correct_answer := "[REQUIRES MANUAL REVIEW]".toList
    points_breakdown :=
      [("correct_answer".toList, 0), (showingWorkKey, 0), ("interpretation".toList, 0)]
    error_type := some ErrorType.incomplete_work
    specific_errors :=
      ["Automated grading failed".toList,
       "Error: ".toList ++ error_message,
       "This submission requires manual review".toList]
    what_was_correct := []
    feedback := fallbackFeedback error_message
    data_references := ["[MANUAL REVIEW REQUIRED]".toList] }

/-- Source `ErrorHandlingGuardrails.create_fallback_result`: calls the
`GradingResult` constructor on the fallback field set; `none` models the
pydantic `ValidationError` propagating out of the call. -/
def create_fallback_result (question_number : Int) (student_answer error_message : Str) :
    Option GradingResult :=
  parseGradingResult (fallbackFields question_number student_answer error_message)

/-- The rate limiter's `submission_history` dict: per-student timestamp
lists (timestamps as seconds, `Int`). -/
abbrev RateState := List (Str × List Int)

/-- Source `RateLimitGuardrails.check_rate_limit`.  The source takes "now" from
`datetime.now()` (twice, nanoseconds apart); it is modelled as the single
explicit parameter `now`.  The filtered `recent` list is used only for the
count; on allow the new timestamp is appended to the original unfiltered
stored list, exactly as in the source.  The human-readable message of the
return value is reconstructed by the orchestrator (`Msg.rateLimitDenied`). -/
def check_rate_limit (st : RateState) (student_id : Str)
    (max_submissions_per_hour : Nat) (now : Int) : Bool × RateState :=
  let history := pyDictGet st student_id []
  let st0 := pyDictSet st student_id history
  let recent := history.filter (fun ts => now - 3600 < ts)
  if max_submissions_per_hour ≤ recent.length then
    (false, st0)
  else
    (true, pyDictSet st0 student_id (history ++ [now]))

/-- Rendering of an input-validation error message (`f"..."` in source). -/
def renderInputError : InputError → Str
  | .missingField f => "Missing required field: ".toList ++ f
  | .invalidQuestionNumber q =>
    "Invalid question_number: must be integer 1-10, got ".toList ++ intToStr q
  | .emptyAnswer => "student_answer cannot be empty".toList
  | .answerTooLong n =>
    "student_answer too long (".toList ++ natToStr n ++ " chars, max 5000)".toList

/-- Rendering of a schema error (the pydantic message text; the numeric
payloads the source interpolates are elided — no theorem inspects them). -/
def renderSchemaError : SchemaError → Str
  | .questionNumberRange => "question_number out of range 1-10".toList
  | .pointsEarnedRange => "points_earned out of range 0-10".toList
  | .pointsExceedPossible => "Points earned cannot exceed points possible".toList
  | .breakdownSum => "Points breakdown must sum to points_earned".toList
  | .feedbackMinLength => "feedback shorter than 50 characters".toList

/-- Rendering of an output-validation error message (numeric payloads of
rational type elided — no theorem inspects these strings). -/
def renderOutputError : OutputError → Str
  | .pydanticFailed es =>
    "Pydantic validation failed: ".toList ++ (es.map renderSchemaError).flatten
  | .questionMismatch expected got =>
    "Question number mismatch: expected ".toList ++ intToStr expected
      ++ ", got ".toList ++ intToStr got
  | .pointsExceed _ _ => "Points earned exceeds points possible".toList
  | .breakdownMismatch _ _ => "Points breakdown does not match points earned".toList
  | .feedbackTooShort n =>
    "Feedback too short (".toList ++ natToStr n ++ " chars, min 20)".toList
  | .placeholderText ind => "Feedback contains placeholder text: ".toList ++ ind

/-- The diagnostic messages accumulated by
`GradingGuardrails.validate_and_grade` (each tagged pass / warn / fail in
the source via a marker glyph; the tag is determined by the constructor). -/
inductive Msg where
  | rateLimitDenied
  | inputFailed (e : InputError)
  | inputPassed
  | outputFailed (e : OutputError)
  | outputPassed
  | consistencyWarning (w : ConsistencyWarning)
  | policyWarning (v : PolicyViolation)
  | gradingComplete (earned : ℚ) (possible : Int)
deriving DecidableEq

/-- Steps 2–5 of `GradingGuardrails.validate_and_grade` (everything after
the rate-limit step).  A `none` first component models an uncaught
exception escaping the pipeline (the source has no try/except around its
`create_fallback_result` calls).  After input validation passes,
`submission['question_number']` is known present, so `getD 0` is exact. -/
def validate_and_grade_rest (st : RateState) (submission : Submission)
    (llm_response : GradingResult) :
    Option (Bool × GradingResult × List Msg) × RateState :=
  let iv := validate_student_submission submission
  if iv.1 = false then
    let msgs := iv.2.map Msg.inputFailed
    match create_fallback_result (submission.question_number.getD 0)
        (submission.student_answer.getD [])
        ("Invalid submission: ".toList
          ++ (match iv.2 with | e :: _ => renderInputError e | [] => [])) with
    | some fb => (some (false, fb, msgs), st)
    | none => (none, st)
  else
    let msgs1 := [Msg.inputPassed]
    let ov := validate_llm_response llm_response (submission.question_number.getD 0)
    let onOutputFail : Option (Bool × GradingResult × List Msg) × RateState :=
      let msgs := msgs1 ++ ov.2.1.map Msg.outputFailed
      match create_fallback_result (submission.question_number.getD 0)
          (submission.student_answer.getD [])
          ("Invalid LLM response: ".toList
            ++ (match ov.2.1 with | e :: _ => renderOutputError e | [] => [])) with
      | some fb => (some (false, fb, msgs), st)
      | none => (none, st)
    match ov.2.2 with
    | none => onOutputFail
    | some result =>
      if ov.1 = false then onOutputFail
      else
        let msgs2 := msgs1 ++ [Msg.outputPassed]
        let cc := check_consistency result
        let msgs3 := msgs2 ++ (if cc.1 = false then cc.2.map Msg.consistencyWarning else [])
        let bp := enforce_grading_policies result
        let msgs4 := msgs3 ++ (if bp.1 = false then bp.2.map Msg.policyWarning else [])
        let msgs5 := msgs4 ++ [Msg.gradingComplete result.points_earned result.points_possible]
        (some (true, result, msgs5), st)

/-- Source `GradingGuardrails.validate_and_grade`: the complete pipeline.
Step 1 (rate limiting, only when a student id is supplied) followed by
`validate_and_grade_rest`.  A `none` first component models an uncaught
exception. -/
def validate_and_grade (st : RateState) (submission : Submission)
    (llm_response : GradingResult) (student_id : Option Str) (now : Int) :
    Option (Bool × GradingResult × List Msg) × RateState :=
  match student_id with
  | some sid =>
    let rl := check_rate_limit st sid 20 now
    if rl.1 = false then
      match create_fallback_result (submission.question_number.getD 0)
          (submission.student_answer.getD []) ("Rate limit exceeded".toList) with
      | some fb => (some (false, fb, [Msg.rateLimitDenied]), rl.2)
      | none => (none, rl.2)
    else
      validate_and_grade_rest rl.2 submission llm_response
  | none => validate_and_grade_rest st submission llm_response

/-- Source `schemas.calculate_letter_grade`. -/
def calculate_letter_grade (percentage : ℚ) : Str :=
  if 93 ≤ percentage then "A".toList
  else if 90 ≤ percentage then "A-".toList
  else if 87 ≤ percentage then "B+".toList
  else if 83 ≤ percentage then "B".toList
  else if 80 ≤ percentage then "B-".toList
  else if 77 ≤ percentage then "C+".toList
  else if 73 ≤ percentage then "C".toList
  else if 70 ≤ percentage then "C-".toList
  else if 60 ≤ percentage then "D".toList
  else "F".toList

/-- A well-formed model response: question 1, zero points with an all-zero
breakdown, one listed error, no data references, clean feedback of more
than 50 characters. -/
def respZero : GradingResult :=
  { question_number := 1
    points_earned := 0
    points_possible := 10
    is_correct := false
    student_answer := "Revenue was 6500 dollars".toList
    correct_answer := "Revenue was 7398 dollars".toList
    points_breakdown :=
      [("correct_answer".toList, 0), (showingWorkKey, 0), ("interpretation".toList, 0)]
    error_type := some ErrorType.wrong_calculation
    specific_errors := ["The December orders were left out of the total".toList]
    what_was_correct := []
    feedback := ("The final total is wrong because several December orders were "
      ++ "not included in the sum of the revenue column.").toList
    data_references := [] }

/-- A submission whose answer is present but whose question number is
missing. -/
def subMissingQ : Submission :=
  { question_number := none, student_answer := some ("Revenue was 6500 dollars".toList) }

/-- A well-formed submission for question 1. -/
def subQ1 : Submission :=
  { question_number := some 1, student_answer := some ("Revenue was 6500 dollars".toList) }

/-- A model response whose breakdown values sum to 5 while claiming 7
points earned (mismatch 2 > 0.01); all other fields well-formed. -/
def respMismatch : GradingResult :=
  { respZero with
    points_earned := 7
    points_breakdown :=
      [("correct_answer".toList, 3), (showingWorkKey, 1), ("interpretation".toList, 1)] }

/-- A model response with `points_possible = 5` but `points_earned = 7`
(breakdown consistent with 7); all other fields well-formed. -/
def respOverPossible : GradingResult :=
  { respZero with
    points_earned := 7
    points_possible := 5
    points_breakdown :=
      [("correct_answer".toList, 4), (showingWorkKey, 2), ("interpretation".toList, 1)] }

/-- Variant of `respZero` with one methodology point awarded (`showing_work = 1`). -/
def respShowOne : GradingResult :=
  { respZero with
    points_earned := 1
    points_breakdown :=
      [("correct_answer".toList, 0), (showingWorkKey, 1), ("interpretation".toList, 0)] }

/-- Student id used in the rate-limiter scenarios. -/
def sidA : Str := "student-1".toList

/-- Student id used in the rate-limiter counterexample. -/
def sidB : Str := "student-2".toList

/-! ## Helper lemmas -/

/-- The function `ratAdd` is rational addition. -/
theorem ratAdd_eq (a b : ℚ) : ratAdd a b = a + b := by
  rw [Rat.add_def]
  simp [ratAdd, Rat.normalize_eq_mkRat]

/-- The function `ratSub` is rational subtraction. -/
theorem ratSub_eq (a b : ℚ) : ratSub a b = a - b := by
  rw [Rat.sub_def]
  simp [ratSub, Rat.normalize_eq_mkRat]

/-- The function `ratAbs` is the rational absolute value. -/
theorem ratAbs_eq (a : ℚ) : ratAbs a = |a| := by
  rw [ratAbs, ratSub_eq]
  split
  · rw [abs_of_neg (by assumption)]; ring
  · rw [abs_of_nonneg (le_of_not_lt (by assumption))]

/-- The function `ratSum` is the rational list sum. -/
theorem ratSum_eq (l : List ℚ) : ratSum l = l.sum := by
  induction l with
  | nil => rfl
  | cons a t ih =>
    rw [List.sum_cons, ← ih]
    show ratAdd a (ratSum t) = _
    rw [ratAdd_eq]

/-- The `0.01` tolerance constant is one hundredth. -/
theorem mkRat_tolerance : mkRat 1 100 = (1 : ℚ)/100 := by norm_num [Rat.mkRat_eq_div]

/-- The pydantic constructor accepts a field set iff the `question_number`
and `points_earned` ranges, the breakdown-sum tolerance and the feedback
minimum length all hold. -/
theorem pydanticErrors_eq_nil (r : GradingResult) :
    pydanticErrors r = [] ↔
      (1 ≤ r.question_number ∧ r.question_number ≤ 10) ∧
      (0 ≤ r.points_earned ∧ r.points_earned ≤ 10) ∧
      ratAbs (ratSub (breakdownSum r) r.points_earned) ≤ mkRat 1 100 ∧
      50 ≤ r.feedback.length := by
  unfold pydanticErrors
  by_cases h1 : 1 ≤ r.question_number ∧ r.question_number ≤ 10 <;>
  by_cases h2 : 0 ≤ r.points_earned ∧ r.points_earned ≤ 10 <;>
  simp only [h1, h2, true_and, false_and, and_true, and_false, if_true, if_false,
    not_true, not_false_iff, if_neg, if_pos, ite_true, ite_false, not_and, and_self] <;>
  by_cases h4 : ratAbs (ratSub (breakdownSum r) r.points_earned) ≤ mkRat 1 100 <;>
  by_cases h5 : r.feedback.length < 50 <;>
  simp_all

/-- Constructor success returns the field set unchanged. -/
theorem parse_eq_some {r : GradingResult} (h : pydanticErrors r = []) :
    parseGradingResult r = some r := by
  unfold parseGradingResult
  rw [if_pos h]

/-- Constructor failure (any construction-time error) raises. -/
theorem parse_eq_none {r : GradingResult} (h : pydanticErrors r ≠ []) :
    parseGradingResult r = none := by
  unfold parseGradingResult
  rw [if_neg h]

/-- A parse that returned a result implies the checks passed and the
result is the input field set. -/
theorem parse_some_elim {r r' : GradingResult} (h : parseGradingResult r = some r') :
    pydanticErrors r = [] ∧ r' = r := by
  unfold parseGradingResult at h
  by_cases hc : pydanticErrors r = []
  · rw [if_pos hc] at h
    exact ⟨hc, (Option.some_inj.mp h).symm⟩
  · rw [if_neg hc] at h
    exact absurd h (by simp)

/-- Reading a key just written to an association list yields the written
value. -/
theorem pyDictGet_pyDictSet {α : Type} (d : List (Str × α)) (k : Str) (v : α) (dflt : α) :
    pyDictGet (pyDictSet d k v) k dflt = v := by
  induction d with
  | nil => simp [pyDictGet, pyDictSet]
  | cons kv rest ih =>
    by_cases h : kv.1 = k
    · simp [pyDictGet, pyDictSet, h]
    · simp [pyDictGet, pyDictSet, h, ih]

/-- On a successful parse, `validate_llm_response` returns the stage 2–6
errors and the parsed result. -/
theorem validate_llm_response_parse_ok (resp : GradingResult) (q : Int)
    (h : pydanticErrors resp = []) :
    validate_llm_response resp q =
      ((outputStageErrors resp q).isEmpty, outputStageErrors resp q, some resp) := by
  unfold validate_llm_response
  rw [parse_eq_some h]

/-- On a failed parse, `validate_llm_response` rejects with no result. -/
theorem validate_llm_response_parse_fail (resp : GradingResult) (q : Int)
    (h : pydanticErrors resp ≠ []) :
    validate_llm_response resp q =
      (false, [OutputError.pydanticFailed (pydanticErrors resp)], none) := by
  unfold validate_llm_response
  rw [parse_eq_none h]

/-- The pattern scan leaves the answer unchanged when no pattern matches. -/
theorem sanitizeScan_of_no_match : ∀ (ps : List Str) (s : Str),
    (∀ p ∈ ps, pyIn (pyLower p) (pyLower s) = false) → sanitizeScan s ps = s
  | [], _, _ => rfl
  | p :: rest, s, h => by
    unfold sanitizeScan
    rw [if_neg (by rw [h p (List.mem_cons_self p rest)]; exact Bool.false_ne_true)]
    exact sanitizeScan_of_no_match rest s fun q hq => h q (List.mem_cons_of_mem _ hq)

/-- The pattern scan prepends the flag marker (once) when some pattern
matches. -/
theorem sanitizeScan_of_match : ∀ (ps : List Str) (s : Str),
    ps.any (fun p => pyIn (pyLower p) (pyLower s)) = true →
    sanitizeScan s ps = flagMarker ++ s
  | [], _, h => by simp at h
  | p :: rest, s, h => by
    unfold sanitizeScan
    by_cases hp : pyIn (pyLower p) (pyLower s) = true
    · rw [if_pos hp]
    · rw [if_neg hp]
      refine sanitizeScan_of_match rest s ?_
      simpa [hp] using h

/-- Trailing-whitespace stripping over an append. -/
theorem pyStripTrail_append (a b : Str) :
    pyStripTrail (a ++ b) =
      if (b.reverse.dropWhile isPySpace).isEmpty then pyStripTrail a
      else a ++ pyStripTrail b := by
  unfold pyStripTrail
  rw [List.reverse_append, List.dropWhile_append]
  split
  · rfl
  · rw [List.reverse_append, List.reverse_reverse]

/-- Stripping an append keeps the stripped right part as a suffix: the
prefixed text never removes content of the original answer. -/
theorem pyStrip_append_exists (a b : Str) : ∃ l, pyStrip (a ++ b) = l ++ pyStrip b := by
  unfold pyStrip
  rw [pyStripTrail_append]
  split
  · rename_i hb
    refine ⟨(pyStripTrail a).dropWhile isPySpace, ?_⟩
    have : pyStripTrail b = [] := by
      unfold pyStripTrail
      rw [List.isEmpty_iff.mp hb]
      rfl
    rw [this]
    simp
  · rw [List.dropWhile_append]
    split
    · exact ⟨[], by simp⟩
    · refine ⟨a.dropWhile isPySpace ++ (pyStripTrail b).takeWhile isPySpace, ?_⟩
      rw [List.append_assoc, List.takeWhile_append_dropWhile]

/-! ## Claims -/

/-- Claim C6 (confirmed): `calculate_letter_grade` is the fixed monotone
step function with inclusive thresholds ≥93→A, ≥90→A-, ≥87→B+, ≥83→B,
≥80→B-, ≥77→C+, ≥73→C, ≥70→C-, ≥60→D, else F; in particular it maps
92.9 to A-, 93.0 to A, 59.9 to F and 60.0 to D. -/
theorem C6_calculate_letter_grade_spec :
    (∀ p : ℚ,
      (93 ≤ p → calculate_letter_grade p = "A".toList) ∧
      (90 ≤ p → p < 93 → calculate_letter_grade p = "A-".toList) ∧
      (87 ≤ p → p < 90 → calculate_letter_grade p = "B+".toList) ∧
      (83 ≤ p → p < 87 → calculate_letter_grade p = "B".toList) ∧
      (80 ≤ p → p < 83 → calculate_letter_grade p = "B-".toList) ∧
      (77 ≤ p → p < 80 → calculate_letter_grade p = "C+".toList) ∧
      (73 ≤ p → p < 77 → calculate_letter_grade p = "C".toList) ∧
      (70 ≤ p → p < 73 → calculate_letter_grade p = "C-".toList) ∧
      (60 ≤ p → p < 70 → calculate_letter_grade p = "D".toList) ∧
      (p < 60 → calculate_letter_grade p = "F".toList)) ∧
    calculate_letter_grade (mkRat 929 10) = "A-".toList ∧
    calculate_letter_grade 93 = "A".toList ∧
    calculate_letter_grade (mkRat 599 10) = "F".toList ∧
    calculate_letter_grade 60 = "D".toList := by
  refine ⟨fun p => ?_, by decide, by decide, by decide, by decide⟩
  refine ⟨fun h1 => ?_, fun h1 h2 => ?_, fun h1 h2 => ?_, fun h1 h2 => ?_, fun h1 h2 => ?_,
    fun h1 h2 => ?_, fun h1 h2 => ?_, fun h1 h2 => ?_, fun h1 h2 => ?_, fun h1 => ?_⟩ <;>
    unfold calculate_letter_grade
  · rw [if_pos (by linarith)]
  · rw [if_neg (by linarith), if_pos (by linarith)]
  · rw [if_neg (by linarith), if_neg (by linarith), if_pos (by linarith)]
  · rw [if_neg (by linarith), if_neg (by linarith), if_neg (by linarith),
      if_pos (by linarith)]
  · rw [if_neg (by linarith), if_neg (by linarith), if_neg (by linarith),
      if_neg (by linarith), if_pos (by linarith)]
  · rw [if_neg (by linarith), if_neg (by linarith), if_neg (by linarith),
      if_neg (by linarith), if_neg (by linarith), if_pos (by linarith)]
  · rw [if_neg (by linarith), if_neg (by linarith), if_neg (by linarith),
      if_neg (by linarith), if_neg (by linarith), if_neg (by linarith),
      if_pos (by linarith)]
  · rw [if_neg (by linarith), if_neg (by linarith), if_neg (by linarith),
      if_neg (by linarith), if_neg (by linarith), if_neg (by linarith),
      if_neg (by linarith), if_pos (by linarith)]
  · rw [if_neg (by linarith), if_neg (by linarith), if_neg (by linarith),
      if_neg (by linarith), if_neg (by linarith), if_neg (by linarith),
      if_neg (by linarith), if_neg (by linarith), if_pos (by linarith)]
  · rw [if_neg (by linarith), if_neg (by linarith), if_neg (by linarith),
      if_neg (by linarith), if_neg (by linarith), if_neg (by linarith),
      if_neg (by linarith), if_neg (by linarith), if_neg (by linarith)]

/-- Claim C6 witness: the theorem applied at three concrete percentages. -/
theorem C6_witness :
    calculate_letter_grade 95 = "A".toList ∧
    calculate_letter_grade 91 = "A-".toList ∧
    calculate_letter_grade 12 = "F".toList :=
  ⟨(C6_calculate_letter_grade_spec.1 95).1 (by norm_num),
   ((C6_calculate_letter_grade_spec.1 91).2.1 (by norm_num)) (by norm_num),
   ((C6_calculate_letter_grade_spec.1 12).2.2.2.2.2.2.2.2.2) (by norm_num)⟩

/-- Claim C4 (confirmed): a rate-limit check denies exactly when the
number of stored timestamps within the trailing hour is at least the
limit, and records the new timestamp exactly when it allows; with a limit
of 3, the fourth check within one hour is denied, and a check 3601 seconds
after the first does not count the first toward the limit. -/
theorem C4_check_rate_limit_spec :
    (∀ (st : RateState) (sid : Str) (m : Nat) (now : Int),
      (check_rate_limit st sid m now).1 =
        decide (((pyDictGet st sid []).filter (fun ts => now - 3600 < ts)).length < m) ∧
      pyDictGet (check_rate_limit st sid m now).2 sid [] =
        (if ((pyDictGet st sid []).filter (fun ts => now - 3600 < ts)).length < m
         then pyDictGet st sid [] ++ [now] else pyDictGet st sid [])) ∧
    check_rate_limit [] sidA 3 0 = (true, [(sidA, [0])]) ∧
    check_rate_limit [(sidA, [0])] sidA 3 600 = (true, [(sidA, [0, 600])]) ∧
    check_rate_limit [(sidA, [0, 600])] sidA 3 1200 = (true, [(sidA, [0, 600, 1200])]) ∧
    check_rate_limit [(sidA, [0, 600, 1200])] sidA 3 1800 = (false, [(sidA, [0, 600, 1200])]) ∧
    check_rate_limit [(sidA, [0, 600, 1200])] sidA 3 3601 =
      (true, [(sidA, [0, 600, 1200, 3601])]) := by
  refine ⟨fun st sid m now => ?_, by decide, by decide, by decide, by decide, by decide⟩
  simp only [check_rate_limit]
  by_cases hm : m ≤ ((pyDictGet st sid []).filter (fun ts => now - 3600 < ts)).length
  · rw [if_pos hm]
    refine ⟨by symm; rw [decide_eq_false_iff_not]; omega, ?_⟩
    rw [if_neg (by omega)]
    exact pyDictGet_pyDictSet ..
  · rw [if_neg hm]
    refine ⟨by symm; rw [decide_eq_true_eq]; omega, ?_⟩
    rw [if_pos (by omega)]
    exact pyDictGet_pyDictSet ..

/-- Claim C3 counterexample: starting from a stored history containing
timestamp 0, a check at time 7200 leaves timestamp 0 in the stored
history even though it is outside the one-hour trailing window
(0 ≤ 7200 − 3600): the stored history is not pruned. -/
theorem C3_counterexample :
    (0 : Int) ∈ pyDictGet (check_rate_limit [(sidB, [0])] sidB 20 7200).2 sidB [] ∧
    ¬ (7200 - 3600 < (0 : Int)) := by decide

/-- Claim C3 (amended): the stored per-submitter history is never pruned —
after a check it is the previous stored history (all old timestamps
retained, in-window or not), extended by the new timestamp when the check
allows; the one-hour window is applied only to a temporary view used for
counting. -/
theorem C3_rate_limit_storage (st : RateState) (sid : Str) (m : Nat) (now : Int) :
    ∃ t, pyDictGet (check_rate_limit st sid m now).2 sid [] =
      pyDictGet st sid [] ++ t := by
  simp only [check_rate_limit]
  split
  · exact ⟨[], by rw [List.append_nil]; exact pyDictGet_pyDictSet ..⟩
  · exact ⟨[now], pyDictGet_pyDictSet ..⟩

/-- Claim C1: at the failing input — a submission whose `question_number`
is missing — the pipeline's input-validation gate fails, the fallback is
built with `question_number` defaulted to 0, the schema rejects it, and
the resulting exception escapes `validate_and_grade` (`none`), instead of
the schema-valid fallback the specification guarantees. -/
theorem C1_validate_and_grade_uncaught :
    (validate_student_submission subMissingQ).1 = false ∧
    (validate_and_grade [] subMissingQ respZero none 0).1 = none := by decide

/-- Claim C5 counterexample: at `question_number = 0` (the very value the
orchestrator defaults to), `create_fallback_result` does not return a
schema-valid result — the constructor raises. -/
theorem C5_counterexample : create_fallback_result 0 [] [] = none := by decide

/-- Claim C5 (amended): for every `question_number` between 1 and 10 —
the schema's admissible range — `create_fallback_result` deterministically
returns a schema-valid `GradingResult` with zero points earned,
`error_type = incomplete_work`, the fixed three-entry `specific_errors`
list containing the supplied error message, empty `what_was_correct`, the
templated feedback block, and `data_references = ["[MANUAL REVIEW REQUIRED]"]`. -/
theorem C5_create_fallback_result_spec (qn : Int) (ans err : Str)
    (h1 : 1 ≤ qn) (h2 : qn ≤ 10) :
    create_fallback_result qn ans err = some (fallbackFields qn ans err) ∧
    pydanticErrors (fallbackFields qn ans err) = [] ∧
    (fallbackFields qn ans err).points_earned = 0 ∧
    (fallbackFields qn ans err).error_type = some ErrorType.incomplete_work ∧
    (fallbackFields qn ans err).specific_errors =
      ["Automated grading failed".toList, "Error: ".toList ++ err,
       "This submission requires manual review".toList] ∧
    (fallbackFields qn ans err).what_was_correct = [] ∧
    (fallbackFields qn ans err).feedback =
      fallbackFeedbackPre ++ err ++ fallbackFeedbackPost ∧
    (fallbackFields qn ans err).data_references = ["[MANUAL REVIEW REQUIRED]".toList] := by
  have hnil : pydanticErrors (fallbackFields qn ans err) = [] := by
    rw [pydanticErrors_eq_nil]
    refine ⟨⟨h1, h2⟩, (by decide : (0:ℚ) ≤ 0 ∧ (0:ℚ) ≤ 10),
      (by decide : ratAbs (ratSub (ratSum [(0:ℚ), 0, 0]) 0) ≤ mkRat 1 100), ?_⟩
    show 50 ≤ (fallbackFeedbackPre ++ err ++ fallbackFeedbackPost).length
    simp only [List.length_append]
    have hpre : 50 ≤ fallbackFeedbackPre.length := by decide
    omega
  exact ⟨parse_eq_some hnil, hnil, rfl, rfl, rfl, rfl, rfl, rfl⟩

/-- Claim C5 witness: the amended theorem applied at question 3. -/
theorem C5_witness :
    create_fallback_result 3 ("my answer".toList) ("LLM failed".toList) =
      some (fallbackFields 3 ("my answer".toList) ("LLM failed".toList)) ∧
    pydanticErrors (fallbackFields 3 ("my answer".toList) ("LLM failed".toList)) = [] ∧
    (fallbackFields 3 ("my answer".toList) ("LLM failed".toList)).points_earned = 0 ∧
    (fallbackFields 3 ("my answer".toList) ("LLM failed".toList)).error_type =
      some ErrorType.incomplete_work ∧
    (fallbackFields 3 ("my answer".toList) ("LLM failed".toList)).specific_errors =
      ["Automated grading failed".toList, "Error: ".toList ++ "LLM failed".toList,
       "This submission requires manual review".toList] ∧
    (fallbackFields 3 ("my answer".toList) ("LLM failed".toList)).what_was_correct = [] ∧
    (fallbackFields 3 ("my answer".toList) ("LLM failed".toList)).feedback =
      fallbackFeedbackPre ++ "LLM failed".toList ++ fallbackFeedbackPost ∧
    (fallbackFields 3 ("my answer".toList) ("LLM failed".toList)).data_references =
      ["[MANUAL REVIEW REQUIRED]".toList] :=
  C5_create_fallback_result_spec 3 ("my answer".toList) ("LLM failed".toList)
    (by decide) (by decide)

/-- Claim C2 counterexample: for a response whose breakdown sums to 5
against 7 points earned, `validate_llm_response` returns `ok = false` —
but no best-effort parsed result is returned (`result` is absent), because
the schema's own breakdown validator already rejects the response at
stage 1. -/
theorem C2_counterexample :
    (validate_llm_response respMismatch 1).1 = false ∧
    (validate_llm_response respMismatch 1).2.2 = none := by decide

/-- Claim C2 (amended): a response whose breakdown sum differs from
`points_earned` by more than 0.01 is rejected at stage 1 (schema
construction): `ok = false`, the single error wraps the pydantic failure,
and no result — not even a best-effort one — is returned; when
`points_earned` is itself in range, the pydantic errors name the
breakdown-sum violation. -/
theorem C2_breakdown_mismatch_rejected (resp : GradingResult) (q : Int)
    (h : ¬ (ratAbs (ratSub (breakdownSum resp) resp.points_earned) ≤ mkRat 1 100)) :
    (validate_llm_response resp q).1 = false ∧
    (validate_llm_response resp q).2.2 = none ∧
    (validate_llm_response resp q).2.1 =
      [OutputError.pydanticFailed (pydanticErrors resp)] ∧
    (0 ≤ resp.points_earned ∧ resp.points_earned ≤ 10 →
      SchemaError.breakdownSum ∈ pydanticErrors resp) := by
  have hne : pydanticErrors resp ≠ [] := by
    rw [Ne, pydanticErrors_eq_nil]
    rintro ⟨-, -, h4, -⟩
    exact h h4
  rw [validate_llm_response_parse_fail resp q hne]
  refine ⟨rfl, rfl, rfl, fun hpe => ?_⟩
  unfold pydanticErrors
  rw [if_pos hpe, if_pos h]
  simp

/-- Claim C2 witness: the amended theorem applied to the concrete
mismatching response. -/
theorem C2_witness :
    (validate_llm_response respMismatch 1).1 = false ∧
    (validate_llm_response respMismatch 1).2.2 = none ∧
    (validate_llm_response respMismatch 1).2.1 =
      [OutputError.pydanticFailed (pydanticErrors respMismatch)] ∧
    (0 ≤ respMismatch.points_earned ∧ respMismatch.points_earned ≤ 10 →
      SchemaError.breakdownSum ∈ pydanticErrors respMismatch) :=
  C2_breakdown_mismatch_rejected respMismatch 1 (by decide)

/-- Claim C10 counterexample: stage 3 is reachable.  A response with
`points_possible = 5` and `points_earned = 7` passes schema construction
(the schema's points validator compares against the default 10, not the
declared `points_possible`), and the stage-3 error fires. -/
theorem C10_counterexample :
    ((validate_llm_response respOverPossible 1).2.2).isSome = true ∧
    (validate_llm_response respOverPossible 1).2.1.any OutputError.is_points_exceed =
      true := by decide

/-- Claim C10 (amended): whenever stage 1 succeeds, the stage-5 branch
(feedback shorter than 20 characters) is unreachable, since the schema
enforces a 50-character minimum; the stage-3 branch (points earned exceed
points possible) is unreachable only when `points_possible ≥ 10` — the
schema's validator ordering makes it compare `points_earned` against the
default 10 rather than the declared `points_possible`. -/
theorem C10_dead_branches (resp : GradingResult) (q : Int) (r : GradingResult)
    (h : (validate_llm_response resp q).2.2 = some r) :
    (validate_llm_response resp q).2.1.any OutputError.is_feedback_short = false ∧
    ((10 : Int) ≤ r.points_possible →
      (validate_llm_response resp q).2.1.any OutputError.is_points_exceed = false) := by
  have hx : pydanticErrors resp = [] ∧ r = resp := by
    unfold validate_llm_response at h
    cases hp : parseGradingResult resp with
    | none => rw [hp] at h; exact absurd h (by simp)
    | some r0 =>
      obtain ⟨hnil, hr0⟩ := parse_some_elim hp
      rw [hp] at h
      simp only at h
      exact ⟨hnil, (Option.some_inj.mp h).symm.trans hr0⟩
  obtain ⟨hnil, hr⟩ := hx
  obtain ⟨-, ⟨-, hpe10⟩, -, hfb⟩ := (pydanticErrors_eq_nil resp).mp hnil
  rw [validate_llm_response_parse_ok resp q hnil]
  simp only
  constructor
  · rw [List.any_eq_false]
    intro e he
    simp only [outputStageErrors, List.mem_append, List.mem_ite_nil_right,
      List.mem_singleton, List.mem_map, List.mem_filter] at he
    rcases he with ((((⟨-, rfl⟩ | ⟨-, rfl⟩) | ⟨-, rfl⟩) | ⟨hc, rfl⟩) | ⟨x, -, rfl⟩)
    · simp [OutputError.is_feedback_short]
    · simp [OutputError.is_feedback_short]
    · simp [OutputError.is_feedback_short]
    · exact absurd hc (by omega)
    · simp [OutputError.is_feedback_short]
  · intro hposs
    rw [hr] at hposs
    have hle : resp.points_earned ≤ (resp.points_possible : ℚ) := by
      calc resp.points_earned ≤ 10 := hpe10
        _ ≤ (resp.points_possible : ℚ) := by exact_mod_cast hposs
    rw [List.any_eq_false]
    intro e he
    simp only [outputStageErrors, List.mem_append, List.mem_ite_nil_right,
      List.mem_singleton, List.mem_map, List.mem_filter] at he
    rcases he with ((((⟨-, rfl⟩ | ⟨hc, rfl⟩) | ⟨-, rfl⟩) | ⟨-, rfl⟩) | ⟨x, -, rfl⟩)
    · simp [OutputError.is_points_exceed]
    · exact absurd hc (not_lt.mpr hle)
    · simp [OutputError.is_points_exceed]
    · simp [OutputError.is_points_exceed]
    · simp [OutputError.is_points_exceed]

/-- Claim C10 witness: the amended theorem applied to a valid response
with `points_possible = 10`. -/
theorem C10_witness :
    (validate_llm_response respZero 1).2.1.any OutputError.is_feedback_short = false ∧
    (validate_llm_response respZero 1).2.1.any OutputError.is_points_exceed = false :=
  ⟨(C10_dead_branches respZero 1 respZero (by decide)).1,
   (C10_dead_branches respZero 1 respZero (by decide)).2 (by decide)⟩

/-- When input validation and output validation both pass, the
post-rate-limit pipeline succeeds and returns the parsed result,
whatever `check_consistency` and `enforce_grading_policies` report. -/
theorem validate_and_grade_rest_success (st : RateState) (sub : Submission)
    (resp : GradingResult)
    (hin : (validate_student_submission sub).1 = true)
    (hout : (validate_llm_response resp (sub.question_number.getD 0)).1 = true) :
    ((validate_and_grade_rest st sub resp).1.map (fun o => o.1)) = some true ∧
    ((validate_and_grade_rest st sub resp).1.map (fun o => o.2.1)) =
      (validate_llm_response resp (sub.question_number.getD 0)).2.2 := by
  have hnil : pydanticErrors resp = [] := by
    by_cases hc : pydanticErrors resp = []
    · exact hc
    · rw [validate_llm_response_parse_fail _ _ hc] at hout
      exact absurd hout (by simp)
  have hov := validate_llm_response_parse_ok resp (sub.question_number.getD 0) hnil
  have hempty : (outputStageErrors resp (sub.question_number.getD 0)).isEmpty = true := by
    rw [hov] at hout
    exact hout
  rw [hov]
  simp [validate_and_grade_rest, hin, hov, hempty]

/-- Claim C7 (confirmed): whenever the orchestrator reaches output
validation (rate limit allows, input valid) and the result passes the
Output Guard, `validate_and_grade` returns `success = true` with that
result, regardless of how many consistency warnings or policy violations
are raised — those findings are only appended to the message list and
never trigger rejection or a fallback. -/
theorem C7_orchestrator_success (st : RateState) (sub : Submission)
    (resp : GradingResult) (student_id : Option Str) (now : Int)
    (hrate : ∀ sid, student_id = some sid → (check_rate_limit st sid 20 now).1 = true)
    (hin : (validate_student_submission sub).1 = true)
    (hout : (validate_llm_response resp (sub.question_number.getD 0)).1 = true) :
    ((validate_and_grade st sub resp student_id now).1.map (fun o => o.1)) = some true ∧
    ((validate_and_grade st sub resp student_id now).1.map (fun o => o.2.1)) =
      (validate_llm_response resp (sub.question_number.getD 0)).2.2 := by
  cases student_id with
  | none =>
    simpa [validate_and_grade] using validate_and_grade_rest_success st sub resp hin hout
  | some sid =>
    have hr := hrate sid rfl
    simpa [validate_and_grade, hr] using
      validate_and_grade_rest_success (check_rate_limit st sid 20 now).2 sub resp hin hout

/-- Claim C7 witness: a response carrying three policy violations (zero
points with a single listed error, wrong calculation with no methodology
credit and no data references) still yields `success = true`. -/
theorem C7_witness :
    (enforce_grading_policies respZero).2 ≠ [] ∧
    ((validate_and_grade [] subQ1 respZero none 0).1.map (fun o => o.1)) = some true ∧
    ((validate_and_grade [] subQ1 respZero none 0).1.map (fun o => o.2.1)) =
      (validate_llm_response respZero (subQ1.question_number.getD 0)).2.2 :=
  ⟨by decide,
   C7_orchestrator_success [] subQ1 respZero none 0
     (fun _ h => Option.noConfusion h) (by decide) (by decide)⟩

/-- Claim C8 (confirmed): a result with `error_type = wrong_calculation`
whose `showing_work` breakdown entry is 0 (or absent — the lookup
defaults to 0) receives the missing-methodology-partial-credit policy
violation; with `showing_work = 1` that violation is never produced. -/
theorem C8_policy_showing_work (r : GradingResult) :
    (r.error_type = some ErrorType.wrong_calculation →
      pyDictGet r.points_breakdown showingWorkKey 0 = 0 →
      PolicyViolation.noPartialCreditForMethodology ∈ (enforce_grading_policies r).2) ∧
    (pyDictGet r.points_breakdown showingWorkKey 0 = 1 →
      PolicyViolation.noPartialCreditForMethodology ∉ (enforce_grading_policies r).2) := by
  constructor
  · intro h1 h2
    simp only [enforce_grading_policies, List.mem_append, List.mem_ite_nil_right,
      List.mem_singleton]
    exact Or.inl (Or.inl (Or.inl ⟨⟨h1, h2⟩, trivial⟩))
  · intro h2 hmem
    simp only [enforce_grading_policies, List.mem_append, List.mem_ite_nil_right,
      List.mem_singleton] at hmem
    rcases hmem with (((⟨⟨-, hz⟩, -⟩ | ⟨-, he⟩) | ⟨-, he⟩) | ⟨-, he⟩)
    · rw [h2] at hz
      norm_num at hz
    · exact PolicyViolation.noConfusion he
    · exact PolicyViolation.noConfusion he
    · exact PolicyViolation.noConfusion he

/-- Claim C8 witness: the theorem applied to the zero-credit
wrong-calculation result and to its variant with one methodology point. -/
theorem C8_witness :
    PolicyViolation.noPartialCreditForMethodology ∈
      (enforce_grading_policies respZero).2 ∧
    PolicyViolation.noPartialCreditForMethodology ∉
      (enforce_grading_policies respShowOne).2 :=
  ⟨(C8_policy_showing_work respZero).1 (by decide) (by decide),
   (C8_policy_showing_work respShowOne).2 (by decide)⟩

/-- Claim C9 counterexample: `" hi "` matches no prompt-injection phrase,
yet `sanitize_student_answer` does not return it unchanged — the final
`strip()` removes the surrounding whitespace. -/
theorem C9_counterexample :
    (dangerous_patterns.any fun p => pyIn (pyLower p) (pyLower (" hi ".toList))) = false ∧
    sanitize_student_answer (" hi ".toList) ≠ " hi ".toList := by decide

/-- Claim C9 (amended): `sanitize_student_answer` preserves the original
text up to surrounding-whitespace trimming: with no (case-insensitive)
phrase match it returns the answer stripped of leading and trailing
whitespace; on a match it returns the flag-marker-prefixed answer,
stripped; in every case the stripped original answer survives as a
contiguous segment of the output — no interior content is removed. -/
theorem C9_sanitize_preserves (answer : Str) :
    ((dangerous_patterns.any fun p => pyIn (pyLower p) (pyLower answer)) = false →
      sanitize_student_answer answer = pyStrip answer) ∧
    ((dangerous_patterns.any fun p => pyIn (pyLower p) (pyLower answer)) = true →
      sanitize_student_answer answer = pyStrip (flagMarker ++ answer)) ∧
    ∃ l, sanitize_student_answer answer = l ++ pyStrip answer := by
  have hno : (dangerous_patterns.any fun p => pyIn (pyLower p) (pyLower answer)) = false →
      sanitize_student_answer answer = pyStrip answer := by
    intro h
    unfold sanitize_student_answer
    rw [sanitizeScan_of_no_match dangerous_patterns answer
      fun p hp => Bool.eq_false_iff.mpr (List.any_eq_false.mp h p hp)]
  have hyes : (dangerous_patterns.any fun p => pyIn (pyLower p) (pyLower answer)) = true →
      sanitize_student_answer answer = pyStrip (flagMarker ++ answer) := by
    intro h
    unfold sanitize_student_answer
    rw [sanitizeScan_of_match dangerous_patterns answer h]
  refine ⟨hno, hyes, ?_⟩
  cases hb : dangerous_patterns.any fun p => pyIn (pyLower p) (pyLower answer) with
  | false => exact ⟨[], by rw [hno hb, List.nil_append]⟩
  | true =>
    rw [hyes hb]
    exact pyStrip_append_exists flagMarker answer

/-- Claim C9 witness: the amended theorem applied to a flagged answer
(case-insensitive match on `"system:"`) and to a clean answer. -/
theorem C9_witness :
    sanitize_student_answer ("SYSTEM: do it".toList) =
      pyStrip (flagMarker ++ "SYSTEM: do it".toList) ∧
    sanitize_student_answer ("a plain answer".toList) =
      pyStrip ("a plain answer".toList) :=
  ⟨(C9_sanitize_preserves ("SYSTEM: do it".toList)).2.1 (by decide),
   (C9_sanitize_preserves ("a plain answer".toList)).1 (by decide)⟩

end LLMGrading

